import Mathlib

/- Shallow embedding of the room synchronization logic of the DeskEscape
never-have-i-ever client (GameRoom.js, Timer.js): local component state,
poll merge, socket handlers, answer submission and the adaptive polling
interval, with theorems checking the specification's claims. -/

namespace DeskEscape

/-- Room lifecycle status (`waiting | playing | completed`). -/
inductive Status where
  | waiting
  | playing
  | completed
deriving DecidableEq

/-- Room visibility (`public | private` in the source; `pub`/`priv` here because
`private` is a Lean keyword). -/
inductive RoomType where
  | pub
  | priv
deriving DecidableEq

/-- A question object as delivered by the server (`currentQuestion` carries
`_id` and `text`). -/
structure QuestionT where
  _id : String
  text : String
deriving DecidableEq

/-- An answer fact as stored in `room.answers`: written by the
`player-answered` socket handler and by `handleAnswer`. -/
structure Answer where
  user : String
  question : String
  round : Nat
  answer : Bool
deriving DecidableEq

/-- A room member (`player.user._id` plus accumulated points). -/
structure Player where
  userId : String
  points : Nat
deriving DecidableEq

/-- The local room snapshot held in the component's `room` state variable. -/
structure Room where
  status : Status
  type : RoomType
  currentRound : Nat
  currentQuestion : Option QuestionT
  answers : List Answer
  players : List Player
  maxRounds : Nat
  maxPlayers : Nat
deriving DecidableEq

/-- A poll response body (`response.data`). Its `answers` field may be absent,
which the source observes through `response.data.answers || prev.answers` and
`response.data.answers?.some(...)`; absence is modelled as `none`. -/
structure RoomResponse where
  status : Status
  type : RoomType
  currentRound : Nat
  currentQuestion : Option QuestionT
  answers : Option (List Answer)
  players : List Player
  maxRounds : Nat
  maxPlayers : Nat
deriving DecidableEq

/-- The round-results summary held in the `roundResults` state variable. -/
structure RoundResults where
  yesCount : Nat
  noCount : Nat
  question : String
deriving DecidableEq

/-- The GameRoom component's local state variables read and written by the
synchronization logic. -/
structure GState where
  room : Option Room
  hasAnswered : Bool
  roundResults : Option RoundResults
  canAnswer : Bool
  questionStartTime : Option Nat
  isTransitioning : Bool
  lastUpdated : Nat
  error : Option String
  isLoading : Bool
  isRefreshing : Bool
  fetchInProgress : Bool
deriving DecidableEq

/-- Number of answer facts recorded for a `(question, round)` pair — the
`answers.filter(a => a.question === q && a.round === r).length` computations
that appear throughout GameRoom.js. -/
def countFor (answers : List Answer) (q : String) (r : Nat) : Nat :=
  (answers.filter fun a => a.question == q && a.round == r).length

/-- Number of `answer === true` facts for a `(question, round)` pair. -/
def yesCountFor (answers : List Answer) (q : String) (r : Nat) : Nat :=
  (answers.filter fun a => a.question == q && a.round == r && a.answer == true).length

/-- Whether a fact with key `(user, question, round)` is already present — the
`prev.answers?.some(...)` duplicate check of the `player-answered` handler. -/
def answerExists (answers : List Answer) (u q : String) (r : Nat) : Bool :=
  answers.any fun a => a.user == u && a.question == q && a.round == r

/-- Time-bonus feedback categories of the submission toast in `handleAnswer`
and of the running bonus text in Timer.js. -/
inductive Feedback where
  | tooQuick
  | bonus3
  | bonus1
  | tooSlow
deriving DecidableEq

/-- The scoring-tier classification of an elapsed answer time, mirroring the
`if/else` chain of `handleAnswer`: `t < 3` too quick, `t <= 5` speed bonus 3,
`t <= 15` speed bonus 1, otherwise too slow. -/
def answerFeedback (t : ℚ) : Feedback :=
  if t < 3 then .tooQuick
  else if t ≤ 5 then .bonus3
  else if t ≤ 15 then .bonus1
  else .tooSlow

/-- The bonus points each feedback tier announces (`+3 points`, `+1 point`,
base points only otherwise). -/
def feedbackBonus : Feedback → ℕ
  | .tooQuick => 0
  | .bonus3 => 3
  | .bonus1 => 1
  | .tooSlow => 0

/-- Payload of the `player-answered` push event. -/
structure PlayerAnsweredData where
  userId : String
  answer : Bool
deriving DecidableEq

/-- The `player-answered` socket handler: if a fact with the same
`(user, question, round)` key exists the state is returned unchanged;
otherwise the fact is appended, and when the new per-question/round count
equals the player count and no summary exists yet, the round-results summary
is computed (the source applies that last `setRoundResults` after a 500 ms
timeout; it is modelled as part of the same step). The source would fault
dereferencing `prev.currentQuestion._id` when no question is active; that
branch is modelled as a no-op. -/
def onPlayerAnswered (s : GState) (d : PlayerAnsweredData) : GState :=
  match s.room with
  | none => s
  | some prev =>
    match prev.currentQuestion with
    | none => s
    | some cq =>
      if answerExists prev.answers d.userId cq._id prev.currentRound then s
      else
        let updatedAnswers := prev.answers ++ [⟨d.userId, cq._id, prev.currentRound, d.answer⟩]
        let answerCount := countFor updatedAnswers cq._id prev.currentRound
        let results : Option RoundResults :=
          if answerCount = prev.players.length ∧ 0 < prev.players.length ∧
              s.roundResults = none then
            let yes := yesCountFor updatedAnswers cq._id prev.currentRound
            some ⟨yes, answerCount - yes, cq.text⟩
          else s.roundResults
        { s with room := some { prev with answers := updatedAnswers },
                 roundResults := results }

/-- The `all-players-answered` socket handler: sets the round-results summary
directly from the event payload, with no existing-summary guard. -/
def onAllPlayersAnswered (s : GState) (d : Option RoundResults) : GState :=
  match d with
  | none => s
  | some data => { s with roundResults := some data }

/-- The snapshot adopted from a poll response when no previous snapshot exists
(the `if (!prev) return response.data` branch of the `setRoom` updater); an
absent `answers` field is read back as empty by every later `?.` access. -/
def roomOfResponse (d : RoomResponse) : Room :=
  { status := d.status, type := d.type, currentRound := d.currentRound,
    currentQuestion := d.currentQuestion, answers := d.answers.getD [],
    players := d.players, maxRounds := d.maxRounds, maxPlayers := d.maxPlayers }

/-- The merge performed by the `setRoom` updater on a poll response when a
previous snapshot exists: every field of the response overwrites the snapshot,
and `answers` follows `response.data.answers || prev.answers` — the local list
survives only when the response's field is absent (an empty array is truthy in
JavaScript and replaces the local list). -/
def mergeRoom (p : Room) (d : RoomResponse) : Room :=
  { status := d.status, type := d.type, currentRound := d.currentRound,
    currentQuestion := d.currentQuestion,
    answers := match d.answers with
      | some l => l
      | none => p.answers,
    players := d.players, maxRounds := d.maxRounds, maxPlayers := d.maxPlayers }

/-- The guard section of `fetchRoomDetails`: skip when a fetch is already in
flight, when a round transition is in flight, or within the 3-second debounce
window since `lastUpdated`, unless forced. Returns the updated state and
whether the network request is issued. (The source also clears a pending
`setTimeout` handle, which is not part of the modelled state.) -/
def fetchRoomDetailsStart (s : GState) (force : Bool) (now : Nat) : GState × Bool :=
  if s.fetchInProgress ∧ ¬force then (s, false)
  else if s.isTransitioning ∧ ¬force then (s, false)
  else if ¬force ∧ now - s.lastUpdated < 3000 then (s, false)
  else
    ({ s with fetchInProgress := true, isRefreshing := true,
              isLoading := if s.room = none then true else s.isLoading }, true)

/-- The success path of `fetchRoomDetails` applied when the HTTP response
arrives, followed by its `finally` section. `roomAtCapture`,
`resultsAtCapture` and `trans` are the values of the `room`, `roundResults`
and `isTransitioning` closure variables captured when the callback was created
(the callback's dependency list omits `roundResults`, so `resultsAtCapture`
can lag the live `s.roundResults`); the `setRoom` functional updater reads the
live `s.room`. The 3-second `setCanAnswer(true)` timer armed on a question
change is a separate timer event outside this step. -/
def fetchRoomDetailsSuccess (s : GState) (d : RoomResponse)
    (roomAtCapture : Option Room) (resultsAtCapture : Option RoundResults)
    (trans : Bool) (uid : String) (now : Nat) : GState :=
  let newRoom : Room :=
    match s.room with
    | none => roomOfResponse d
    | some p => mergeRoom p d
  let hasAns : Bool :=
    match d.currentQuestion with
    | some cq =>
        if d.status = Status.playing then
          (d.answers.getD []).any fun a =>
            a.user == uid && a.question == cq._id && a.round == d.currentRound
        else s.hasAnswered
    | none => s.hasAnswered
  let questionChanged : Bool :=
    match d.currentQuestion with
    | some cq =>
        decide (d.status = Status.playing) &&
        (match roomAtCapture with
         | none => true
         | some p =>
             (match p.currentQuestion with
              | none => true
              | some pq => pq._id != cq._id) || (p.currentRound != d.currentRound))
    | none => false
  let aFires : Bool := questionChanged && !trans
  let results : Option RoundResults :=
    match d.currentQuestion with
    | some cq =>
        let answerCount := countFor (d.answers.getD []) cq._id d.currentRound
        if d.status = Status.playing ∧ trans = false ∧
            answerCount = d.players.length ∧ 0 < d.players.length ∧
            resultsAtCapture = none then
          let yes := yesCountFor (d.answers.getD []) cq._id d.currentRound
          some ⟨yes, answerCount - yes, cq.text⟩
        else if aFires then none
        else s.roundResults
    | none => if aFires then none else s.roundResults
  { s with
    room := some newRoom,
    hasAnswered := hasAns,
    questionStartTime := if aFires then some now else s.questionStartTime,
    canAnswer := if aFires then false else s.canAnswer,
    roundResults := results,
    isLoading := false,
    isRefreshing := false,
    fetchInProgress := false,
    lastUpdated := now }

/-- The failure path of `fetchRoomDetails` followed by its `finally` section:
with no snapshot the hard load error message is set; with a snapshot the error
state and snapshot are untouched and a transient toast warning fires unless
the captured `isTransitioning` flag is set. The second component reports
whether the warning toast fired. The `finally` section stamps `lastUpdated`
even on failure (despite the comment above it in the source). -/
def fetchRoomDetailsFailure (s : GState) (trans : Bool) (now : Nat) : GState × Bool :=
  let warned := s.room.isSome && !trans
  let err : Option String :=
    if s.room = none then some "Failed to load room details" else s.error
  ({ s with error := err, isLoading := false, isRefreshing := false,
            fetchInProgress := false, lastUpdated := now }, warned)

/-- Outcome of the `submitAnswer` HTTP request in `handleAnswer`. -/
inductive ApiResult where
  | ok
  | failed
deriving DecidableEq

/-- One step of `handleAnswer`: the `hasAnswered` flag is set optimistically
before the request; on success the user's answer is appended to `room.answers`
with no duplicate check; on failure the optimistic flag is reset to `false`
and the room is untouched (the append sits after the awaited request). A
missing `currentQuestion` would fault in the source inside the `setRoom`
updater; that branch is modelled as leaving the room unchanged. -/
def handleAnswer (s : GState) (uid : String) (ans : Bool) (res : ApiResult) : GState :=
  match res with
  | .failed => { s with hasAnswered := false }
  | .ok =>
    let room' : Option Room :=
      match s.room with
      | none => none
      | some prev =>
        match prev.currentQuestion with
        | none => some prev
        | some cq =>
            some { prev with
                   answers := prev.answers ++ [⟨uid, cq._id, prev.currentRound, ans⟩] }
    { s with hasAnswered := true, room := room' }

/-- One `joinRoom` transport request as issued by the `api.post` call in
`handleJoinRoom`: the body carries the user id and, for private rooms, the
current passcode input (possibly empty); for public rooms the passcode field
is omitted. -/
structure JoinCall where
  userId : String
  passcode : Option String
deriving DecidableEq

/-- The transport requests issued by one invocation of `handleJoinRoom`:
exactly one `joinRoom` call, unconditionally — the handler performs no local
passcode check. -/
def handleJoinRoomCalls (room : Room) (uid : String) (passcode : String) : List JoinCall :=
  [⟨uid, if room.type = RoomType.priv then some passcode else none⟩]

/-- Enabled-state of the passcode form's submit button:
`disabled = isJoining || !passcode`. -/
def enterRoomEnabled (isJoining : Bool) (passcode : String) : Bool :=
  !isJoining && !(passcode == "")

/-- Enabled-state of the room-header join button, which invokes the same
handler and imposes no passcode requirement:
`disabled = isJoining || status !== waiting || players.length >= maxPlayers`. -/
def joinButtonEnabled (isJoining : Bool) (room : Room) : Bool :=
  !isJoining && decide (room.status = Status.waiting)
    && decide (room.players.length < room.maxPlayers)

/-- Base polling interval in milliseconds from the `setInterval` body:
15 s while the room status is playing, 30 s otherwise. `status` is
`room?.status`. -/
def baseInterval (status : Option Status) : ℚ :=
  if status = some Status.playing then 15000 else 30000

/-- The next polling interval computed by the `setInterval` body:
`min(base * 1.5 ^ floor(elapsed / base), 60000) * (0.8 + r * 0.4)` where
`elapsed` is the time since `lastPollingUpdate` (stamped on every completed
fetch) and `r` is the `Math.random()` draw in `[0, 1)`. -/
def nextInterval (status : Option Status) (elapsed : ℚ) (r : ℚ) : ℚ :=
  min (baseInterval status * (3 / 2) ^ (⌊elapsed / baseInterval status⌋).toNat) 60000
    * (4 / 5 + r * (2 / 5))

/-- Modelled from the spec: the scheduler formula as the specification words
it — `min(base * 1.5^k, 60 s)` with `k` the number of consecutive scheduler
ticks (5 s apart) since the last accepted fetch, scaled by the jitter factor.
Stated independently for comparison with `nextInterval`. -/
def specNextInterval (status : Option Status) (k : ℕ) (r : ℚ) : ℚ :=
  min (baseInterval status * (3 / 2) ^ k) 60000 * (4 / 5 + r * (2 / 5))

/-- Sample question used by the concrete witnesses and counterexamples. -/
def q1 : QuestionT := ⟨"q1", "question one"⟩

/-- Sample recorded answer fact: user `u1` answered question `q1` in round 1. -/
def factA : Answer := ⟨"u1", "q1", 1, true⟩

/-- Sample two-player room in round 1 of play holding `factA`. -/
def room1 : Room :=
  { status := Status.playing, type := RoomType.pub, currentRound := 1,
    currentQuestion := some q1, answers := [factA],
    players := [⟨"u1", 0⟩, ⟨"u2", 0⟩], maxRounds := 3, maxPlayers := 8 }

/-- Sample quiescent component state holding `room1`. -/
def gstate1 : GState :=
  { room := some room1, hasAnswered := false, roundResults := none,
    canAnswer := true, questionStartTime := some 0, isTransitioning := false,
    lastUpdated := 0, error := none, isLoading := false, isRefreshing := false,
    fetchInProgress := false }

/-- C5: the scoring-tier classification is a pure function of the elapsed
seconds with inclusive boundaries: below 3 s the bonus is 0 (reading period),
from 3 s to 5 s inclusive the bonus is 3, above 5 s up to 15 s inclusive the
bonus is 1, above 15 s the bonus is 0; in particular the boundary samples
2.999, 3, 5, 5.001, 15 and 15.001 classify as 0, 3, 3, 1, 1 and 0. -/
theorem c5_tier_boundaries :
    (∀ t : ℚ, t < 3 → answerFeedback t = Feedback.tooQuick ∧
        feedbackBonus (answerFeedback t) = 0) ∧
    (∀ t : ℚ, 3 ≤ t → t ≤ 5 → feedbackBonus (answerFeedback t) = 3) ∧
    (∀ t : ℚ, 5 < t → t ≤ 15 → feedbackBonus (answerFeedback t) = 1) ∧
    (∀ t : ℚ, 15 < t → feedbackBonus (answerFeedback t) = 0) ∧
    feedbackBonus (answerFeedback (2999 / 1000)) = 0 ∧
    feedbackBonus (answerFeedback 3) = 3 ∧
    feedbackBonus (answerFeedback 5) = 3 ∧
    feedbackBonus (answerFeedback (5001 / 1000)) = 1 ∧
    feedbackBonus (answerFeedback 15) = 1 ∧
    feedbackBonus (answerFeedback (15001 / 1000)) = 0 := by
  refine ⟨?_, ?_, ?_, ?_, ?_, ?_, ?_, ?_, ?_, ?_⟩
  · intro t h
    simp [answerFeedback, h, feedbackBonus]
  · intro t h h5
    have h3 : ¬ t < 3 := not_lt.mpr h
    simp [answerFeedback, h3, h5, feedbackBonus]
  · intro t h5 h15
    have h3 : ¬ t < 3 := not_lt.mpr (by linarith)
    have h5' : ¬ t ≤ 5 := not_le.mpr h5
    simp [answerFeedback, h3, h5', h15, feedbackBonus]
  · intro t h15
    have h3 : ¬ t < 3 := not_lt.mpr (by linarith)
    have h5' : ¬ t ≤ 5 := not_le.mpr (by linarith)
    have h15' : ¬ t ≤ 15 := not_le.mpr h15
    simp [answerFeedback, h3, h5', h15', feedbackBonus]
  all_goals norm_num [answerFeedback, feedbackBonus]

/-- Witness for C5 at the concrete input 4 s: the 3-to-5-second tier applies
and yields bonus 3. -/
theorem c5_tier_boundaries_witness :
    feedbackBonus (answerFeedback 4) = 3 :=
  c5_tier_boundaries.2.1 4 (by norm_num) (by norm_num)

/-- C9: when the `submitAnswer` request fails, the optimistic `hasAnswered`
flag is rolled back to its pre-optimistic value `false`, and the room
snapshot is untouched (the local append sits after the awaited request). -/
theorem c9_rollback (s : GState) (uid : String) (ans : Bool)
    (h : s.hasAnswered = false) :
    (handleAnswer s uid ans ApiResult.failed).hasAnswered = s.hasAnswered ∧
    (handleAnswer s uid ans ApiResult.failed).hasAnswered = false ∧
    (handleAnswer s uid ans ApiResult.failed).room = s.room := by
  simp [handleAnswer, h]

/-- Witness for C9 at a concrete state with `hasAnswered = false`. -/
theorem c9_rollback_witness :
    gstate1.hasAnswered = false ∧
    (handleAnswer gstate1 "u1" true ApiResult.failed).hasAnswered = false :=
  ⟨rfl, (c9_rollback gstate1 "u1" true rfl).2.1⟩

/-- C10: a non-forced invocation of the room fetch made less than 3000 ms
after `lastUpdated` returns without issuing a network request and with the
component state (room snapshot, `hasAnswered`, `roundResults`, `canAnswer`,
`questionStartTime` and the rest) unchanged. -/
theorem c10_debounce (s : GState) (now : Nat)
    (h : now - s.lastUpdated < 3000) :
    fetchRoomDetailsStart s false now = (s, false) := by
  unfold fetchRoomDetailsStart
  by_cases h1 : s.fetchInProgress
  · simp [h1]
  · by_cases h2 : s.isTransitioning
    · simp [h1, h2]
    · simp [h1, h2, h]

/-- Witness for C10: a concrete non-forced fetch 1000 ms after the last
update is a no-op issuing no request. -/
theorem c10_debounce_witness :
    fetchRoomDetailsStart gstate1 false 1000 = (gstate1, false) :=
  c10_debounce gstate1 1000 (by decide)

/-- Sample poll response for `room1`'s round whose `answers` field is present
but empty — stale relative to the push-delivered `factA`. -/
def respEmpty : RoomResponse :=
  { status := Status.playing, type := RoomType.pub, currentRound := 1,
    currentQuestion := some q1, answers := some [],
    players := [⟨"u1", 0⟩, ⟨"u2", 0⟩], maxRounds := 3, maxPlayers := 8 }

/-- Sample poll response carrying `factA` exactly once. -/
def respOnce : RoomResponse :=
  { status := Status.playing, type := RoomType.pub, currentRound := 1,
    currentQuestion := some q1, answers := some [factA],
    players := [⟨"u1", 0⟩, ⟨"u2", 0⟩], maxRounds := 3, maxPlayers := 8 }

/-- Helper: the `player-answered` handler is the identity when a fact with the
same `(user, question, round)` key is already recorded. -/
theorem onPlayerAnswered_of_exists (s : GState) (e : PlayerAnsweredData)
    (prev : Room) (cq : QuestionT)
    (hroom : s.room = some prev) (hq : prev.currentQuestion = some cq)
    (hdup : answerExists prev.answers e.userId cq._id prev.currentRound = true) :
    onPlayerAnswered s e = s := by
  simp [onPlayerAnswered, hroom, hq, hdup]

/-- C1 counterexample: the poll merge does not preserve local answer facts
absent from the response's `answers` field — with a previous snapshot holding
`factA` and a poll response whose `answers` field is present but lacks it, the
merged result drops `factA` (the source folds `answers` only through
`response.data.answers || prev.answers`, which keeps local facts only when the
field itself is absent). -/
theorem c1_counterexample :
    factA ∈ room1.answers ∧
    (∀ a ∈ (respEmpty.answers.getD []), a ≠ factA) ∧
    factA ∉ (mergeRoom room1 respEmpty).answers := by decide

/-- C1 (amended): when the poll response's `answers` field is present, the
merged `answers` is exactly the response's list (so local facts absent from it
are dropped, and a fact delivered once by the poll is counted exactly once);
when the field is absent, the local list is preserved; and a fact already
recorded (by either channel) is not recorded again by the `player-answered`
handler, so push-then-poll and poll-then-push deliveries of the same fact
yield exactly one counted fact. -/
theorem c1_merge_dedup :
    (∀ (p : Room) (d : RoomResponse) (l : List Answer), d.answers = some l →
       (mergeRoom p d).answers = l) ∧
    (∀ (p : Room) (d : RoomResponse), d.answers = none →
       (mergeRoom p d).answers = p.answers) ∧
    (∀ (s : GState) (e : PlayerAnsweredData) (prev : Room) (cq : QuestionT),
       s.room = some prev → prev.currentQuestion = some cq →
       answerExists prev.answers e.userId cq._id prev.currentRound = true →
       onPlayerAnswered s e = s) :=
  ⟨fun p d l h => by simp [mergeRoom, h],
   fun p d h => by simp [mergeRoom, h],
   fun s e prev cq h1 h2 h3 => onPlayerAnswered_of_exists s e prev cq h1 h2 h3⟩

/-- Witness for C1 (amended): a poll carrying `factA` once merges to a list
counting it once even though it is also locally present, and the push echo of
`factA` afterwards is a no-op. -/
theorem c1_merge_dedup_witness :
    (mergeRoom room1 respOnce).answers = [factA] ∧
    countFor (mergeRoom room1 respOnce).answers "q1" 1 = 1 ∧
    onPlayerAnswered gstate1 ⟨"u1", true⟩ = gstate1 :=
  ⟨c1_merge_dedup.1 room1 respOnce [factA] rfl,
   by rw [c1_merge_dedup.1 room1 respOnce [factA] rfl]; decide,
   c1_merge_dedup.2.2 gstate1 ⟨"u1", true⟩ room1 q1 rfl rfl (by decide)⟩

/-- C4 counterexample: recording a duplicate fact is not always a no-op — the
answer-submission path (`handleAnswer`) appends the user's fact to
`room.answers` without any duplicate check, so submitting a fact whose
`(user, question, round)` key is already recorded (e.g. the push echo arrived
during the awaited request) raises `countFor` from 1 to 2 and `yesCountFor`
from 1 to 2. -/
theorem c4_counterexample :
    countFor room1.answers "q1" 1 = 1 ∧
    yesCountFor room1.answers "q1" 1 = 1 ∧
    ((handleAnswer gstate1 "u1" true ApiResult.ok).room.map
        fun rm => countFor rm.answers "q1" 1) = some 2 ∧
    ((handleAnswer gstate1 "u1" true ApiResult.ok).room.map
        fun rm => yesCountFor rm.answers "q1" 1) = some 2 := by decide

/-- C4 (amended): recording a duplicate fact through the `player-answered`
handler is a no-op — the state is unchanged and every `countFor` and
`yesCountFor` value is preserved; only the local `handleAnswer` submission
path appends without a duplicate check. -/
theorem c4_push_dedup (s : GState) (e : PlayerAnsweredData) (prev : Room)
    (cq : QuestionT) (q : String) (r : Nat)
    (hroom : s.room = some prev) (hq : prev.currentQuestion = some cq)
    (hdup : answerExists prev.answers e.userId cq._id prev.currentRound = true) :
    onPlayerAnswered s e = s ∧
    ((onPlayerAnswered s e).room.map fun rm => countFor rm.answers q r) =
      some (countFor prev.answers q r) ∧
    ((onPlayerAnswered s e).room.map fun rm => yesCountFor rm.answers q r) =
      some (yesCountFor prev.answers q r) := by
  have h := onPlayerAnswered_of_exists s e prev cq hroom hq hdup
  refine ⟨h, ?_, ?_⟩ <;> rw [h, hroom] <;> rfl

/-- Witness for C4 (amended): the push echo of an already-recorded fact (same
key, even with a different answer value) leaves the state and both counts
unchanged. -/
theorem c4_push_dedup_witness :
    onPlayerAnswered gstate1 ⟨"u1", false⟩ = gstate1 ∧
    ((onPlayerAnswered gstate1 ⟨"u1", false⟩).room.map
        fun rm => countFor rm.answers "q1" 1) = some 1 ∧
    ((onPlayerAnswered gstate1 ⟨"u1", false⟩).room.map
        fun rm => yesCountFor rm.answers "q1" 1) = some 1 :=
  c4_push_dedup gstate1 ⟨"u1", false⟩ room1 q1 "q1" 1 rfl rfl (by decide)

/-- Second sample question, active in round 2. -/
def q2 : QuestionT := ⟨"q2", "question two"⟩

/-- Sample room mid-game in round 2, as left by a push-driven round change. -/
def room2 : Room :=
  { status := Status.playing, type := RoomType.pub, currentRound := 2,
    currentQuestion := some q2, answers := [],
    players := [⟨"u1", 0⟩, ⟨"u2", 0⟩], maxRounds := 3, maxPlayers := 8 }

/-- Sample component state holding `room2` while a round-change transition is
in flight (`isTransitioning = true`). -/
def gsTrans : GState :=
  { room := some room2, hasAnswered := false, roundResults := none,
    canAnswer := false, questionStartTime := some 4000, isTransitioning := true,
    lastUpdated := 4000, error := none, isLoading := false, isRefreshing := false,
    fetchInProgress := false }

/-- Sample stale poll response still describing round 1 with question `q1`. -/
def respRound1 : RoomResponse :=
  { status := Status.playing, type := RoomType.pub, currentRound := 1,
    currentQuestion := some q1, answers := some [],
    players := [⟨"u1", 0⟩, ⟨"u2", 0⟩], maxRounds := 3, maxPlayers := 8 }

/-- C2 counterexample: a poll response completing while the state is
`TRANSITIONING` does change the snapshot's `currentQuestion` and
`currentRound` — a fetch in flight when the transition began (captured
`isTransitioning = false`) applies the stale round-1 response over the
just-pushed round-2 snapshot; no deferred-queue mechanism exists in the
source. -/
theorem c2_counterexample :
    gsTrans.isTransitioning = true ∧
    gsTrans.room.map Room.currentRound = some 2 ∧
    gsTrans.room.map Room.currentQuestion = some (some q2) ∧
    ((fetchRoomDetailsSuccess gsTrans respRound1 (some room2) none false "u1" 5000).room.map
        Room.currentRound) = some 1 ∧
    ((fetchRoomDetailsSuccess gsTrans respRound1 (some room2) none false "u1" 5000).room.map
        Room.currentQuestion) = some (some q1) := by decide

/-- C2 (amended): while `isTransitioning` is set, a non-forced poll
*invocation* is skipped entirely — no request is issued and the state is
unchanged — but there is no deferral: a poll response that does complete
(from a fetch already in flight, or forced) is applied in full, its
`currentRound`/`currentQuestion` included, whatever the transition state; the
source issues a fresh forced fetch after each transition instead of replaying
a deferred poll result. -/
theorem c2_transition_guard :
    (∀ (s : GState) (now : Nat), s.isTransitioning = true →
       fetchRoomDetailsStart s false now = (s, false)) ∧
    (∀ (s : GState) (d : RoomResponse) (rc : Option Room)
       (res : Option RoundResults) (trans : Bool) (uid : String) (now : Nat)
       (prev : Room), s.room = some prev →
       (fetchRoomDetailsSuccess s d rc res trans uid now).room =
         some (mergeRoom prev d)) := by
  constructor
  · intro s now h
    unfold fetchRoomDetailsStart
    by_cases h1 : s.fetchInProgress
    · simp [h1]
    · simp [h1, h]
  · intro s d rc res trans uid now prev h
    simp [fetchRoomDetailsSuccess, h]

/-- Witness for C2 (amended) at concrete inputs: the transitioning state's
non-forced fetch is a no-op, and a completing forced poll (captured
`isTransitioning = true`) still merges the stale response into the room. -/
theorem c2_transition_guard_witness :
    fetchRoomDetailsStart gsTrans false 5000 = (gsTrans, false) ∧
    (fetchRoomDetailsSuccess gsTrans respRound1 (some room2) none true "u1" 5000).room =
      some (mergeRoom room2 respRound1) :=
  ⟨c2_transition_guard.1 gsTrans 5000 rfl,
   c2_transition_guard.2 gsTrans respRound1 (some room2) none true "u1" 5000 room2 rfl⟩

/-- Sample round-results summaries with distinct contents. -/
def rr1 : RoundResults := ⟨2, 0, "question one"⟩

/-- A second, different summary for the same question. -/
def rr2 : RoundResults := ⟨1, 1, "question one"⟩

/-- Sample state in which a round-results summary already exists. -/
def gsResults : GState := { gstate1 with roundResults := some rr1 }

/-- C3 counterexample: the round-results summary is not first-wins — an
`all-players-answered` push event arriving after a summary already exists
replaces it unconditionally (the handler calls `setRoundResults(data)` with no
existing-summary guard), within the same round. -/
theorem c3_counterexample :
    gsResults.roundResults = some rr1 ∧
    (onAllPlayersAnswered gsResults (some rr2)).roundResults = some rr2 ∧
    rr1 ≠ rr2 := by decide

/-- C3 (amended): an existing summary survives a `player-answered` event and
survives a poll response whose callback captured the current `roundResults`
and whose data keeps the same question and round; only the
`all-players-answered` event (and a poll whose captured `roundResults` is
stale) can replace it before the round advances. -/
theorem c3_first_summary :
    (∀ (s : GState) (e : PlayerAnsweredData) (r : RoundResults),
       s.roundResults = some r → (onPlayerAnswered s e).roundResults = some r) ∧
    (∀ (s : GState) (d : RoomResponse) (prev : Room) (cq : QuestionT)
       (r : RoundResults) (trans : Bool) (uid : String) (now : Nat),
       s.room = some prev → s.roundResults = some r →
       prev.currentQuestion = some cq → d.currentQuestion = some cq →
       d.currentRound = prev.currentRound →
       (fetchRoomDetailsSuccess s d (some prev) (some r) trans uid now).roundResults =
         some r) := by
  constructor
  · intro s e r h
    unfold onPlayerAnswered
    split
    · exact h
    · split
      · exact h
      · split
        · exact h
        · simp [h]
  · intro s d prev cq r trans uid now hroom hres hq hdq hr
    simp [fetchRoomDetailsSuccess, hroom, hres, hq, hdq, hr]

/-- Witness for C3 (amended) at concrete inputs: with summary `rr1` in place,
a duplicate push answer and a same-round poll response both leave `rr1`
untouched. -/
theorem c3_first_summary_witness :
    (onPlayerAnswered gsResults ⟨"u2", true⟩).roundResults = some rr1 ∧
    (fetchRoomDetailsSuccess gsResults respOnce (some room1) (some rr1)
        false "u1" 9000).roundResults = some rr1 :=
  ⟨c3_first_summary.1 gsResults ⟨"u2", true⟩ rr1 rfl,
   c3_first_summary.2 gsResults respOnce room1 q1 rr1 false "u1" 9000
     rfl rfl rfl rfl rfl⟩

/-- Sample state before any snapshot has been loaded. -/
def gsEmpty : GState := { gstate1 with room := none }

/-- C6 counterexample: a poll failure with a prior snapshot present does not
always surface the transient warning — when the callback's captured
`isTransitioning` flag is set (a forced fetch issued during a transition),
the failure is swallowed silently: no toast fires. -/
theorem c6_counterexample :
    gsTrans.room.isSome = true ∧
    (fetchRoomDetailsFailure gsTrans true 9000).2 = false ∧
    (fetchRoomDetailsFailure gsTrans true 9000).1.room = some room2 := by decide

/-- C6 (amended): a poll failure with no snapshot sets the hard load error; a
failure never touches the snapshot, `hasAnswered` or `roundResults` and always
re-enables the next scheduled fetch (`fetchInProgress`/`isRefreshing`
cleared); with a snapshot present the error state is untouched and the
transient warning fires exactly when the captured transition flag is off. -/
theorem c6_failure_handling :
    (∀ (s : GState) (trans : Bool) (now : Nat), s.room = none →
       (fetchRoomDetailsFailure s trans now).1.error =
         some "Failed to load room details") ∧
    (∀ (s : GState) (trans : Bool) (now : Nat),
       (fetchRoomDetailsFailure s trans now).1.room = s.room ∧
       (fetchRoomDetailsFailure s trans now).1.hasAnswered = s.hasAnswered ∧
       (fetchRoomDetailsFailure s trans now).1.roundResults = s.roundResults ∧
       (fetchRoomDetailsFailure s trans now).1.fetchInProgress = false ∧
       (fetchRoomDetailsFailure s trans now).1.isRefreshing = false) ∧
    (∀ (s : GState) (now : Nat) (prev : Room), s.room = some prev →
       (fetchRoomDetailsFailure s false now).1.error = s.error ∧
       (fetchRoomDetailsFailure s false now).2 = true) := by
  refine ⟨?_, ?_, ?_⟩
  · intro s trans now h
    simp [fetchRoomDetailsFailure, h]
  · intro s trans now
    simp [fetchRoomDetailsFailure]
  · intro s now prev h
    simp [fetchRoomDetailsFailure, h]

/-- Witness for C6 (amended) at concrete inputs: the empty state gets the
hard load error; the loaded state keeps its snapshot and fires the warning. -/
theorem c6_failure_handling_witness :
    (fetchRoomDetailsFailure gsEmpty false 9000).1.error =
      some "Failed to load room details" ∧
    (fetchRoomDetailsFailure gstate1 false 9000).1.room = some room1 ∧
    (fetchRoomDetailsFailure gstate1 false 9000).2 = true :=
  ⟨c6_failure_handling.1 gsEmpty false 9000 rfl,
   ((c6_failure_handling.2.1 gstate1 false 9000).1).trans rfl,
   (c6_failure_handling.2.2 gstate1 9000 room1 rfl).2⟩

/-- C7 counterexample: the backoff exponent is not the number of consecutive
5-second scheduler ticks since the last accepted fetch — 35 s after the last
fetch of a playing room (7 elapsed ticks) the source computes
`min(15000 * 1.5 ^ floor(35000 / 15000), 60000) = 33750` ms (at neutral jitter
`r = 1/2`), while the claimed formula with `k = 7` gives the 60 s cap. -/
theorem c7_counterexample :
    (35000 : ℚ) = 7 * 5000 ∧
    nextInterval (some Status.playing) 35000 (1 / 2) = 33750 ∧
    specNextInterval (some Status.playing) 7 (1 / 2) = 60000 ∧
    (33750 : ℚ) ≠ 60000 := by
  have ht : Int.toNat 2 = 2 := rfl
  norm_num [nextInterval, specNextInterval, baseInterval, ht]

/-- C7 (amended): the next interval equals
`min(base * 1.5 ^ floor(elapsed / base), 60 s)` scaled by the jitter factor
`0.8 + 0.4 * r` lying in `[0.8, 1.2)`, where `elapsed` is the time since the
last completed fetch (stamped on success and failure alike) and `base` is
15 s while playing and 30 s otherwise; the 60 s cap applies before the
jitter. -/
theorem c7_interval_formula (status : Option Status) (elapsed r : ℚ)
    (h0 : 0 ≤ r) (h1 : r < 1) :
    nextInterval status elapsed r =
      specNextInterval status (⌊elapsed / baseInterval status⌋).toNat r ∧
    4 / 5 ≤ 4 / 5 + r * (2 / 5) ∧
    4 / 5 + r * (2 / 5) < 6 / 5 ∧
    min (baseInterval status * (3 / 2) ^ (⌊elapsed / baseInterval status⌋).toNat)
        60000 ≤ 60000 := by
  refine ⟨rfl, by nlinarith, by nlinarith, min_le_right _ _⟩

/-- Witness for C7 (amended) at concrete inputs: 35 s elapsed of a playing
room with jitter draw 0, where the floor exponent is 2. -/
theorem c7_interval_formula_witness :
    nextInterval (some Status.playing) 35000 0 =
      specNextInterval (some Status.playing)
        (⌊(35000 : ℚ) / baseInterval (some Status.playing)⌋).toNat 0 :=
  (c7_interval_formula (some Status.playing) 35000 0 (by norm_num) (by norm_num)).1

/-- Sample private room in the waiting state with one member and free seats. -/
def roomPriv : Room :=
  { status := Status.waiting, type := RoomType.priv, currentRound := 1,
    currentQuestion := none, answers := [],
    players := [⟨"u2", 0⟩], maxRounds := 3, maxPlayers := 8 }

/-- C8 counterexample: a join attempt on a private room without a passcode is
not rejected locally — the room-header join button is enabled with an empty
passcode input, and invoking the handler issues one `joinRoom` transport call
carrying the empty passcode (the handler contains no local passcode check). -/
theorem c8_counterexample :
    roomPriv.type = RoomType.priv ∧
    joinButtonEnabled false roomPriv = true ∧
    handleJoinRoomCalls roomPriv "u1" "" = [⟨"u1", some ""⟩] ∧
    (handleJoinRoomCalls roomPriv "u1" "").length = 1 := by decide

/-- C8 (amended): every invocation of the join handler issues exactly one
`joinRoom` transport call — for a private room it carries the current
passcode input, empty or not; the only local no-passcode rejection is the
disabled submit button of the passcode form, while the room-header join
button imposes no passcode requirement. -/
theorem c8_join_calls (room : Room) (uid pc : String)
    (hpriv : room.type = RoomType.priv) :
    (handleJoinRoomCalls room uid pc).length = 1 ∧
    handleJoinRoomCalls room uid pc = [⟨uid, some pc⟩] ∧
    (∀ j : Bool, enterRoomEnabled j "" = false) := by
  refine ⟨rfl, by simp [handleJoinRoomCalls, hpriv], ?_⟩
  intro j
  cases j <;> rfl

/-- Witness for C8 (amended): joining the sample private room with a passcode
issues exactly the one transport call carrying it, and the passcode-form
button stays disabled on an empty passcode. -/
theorem c8_join_calls_witness :
    handleJoinRoomCalls roomPriv "u1" "secret" = [⟨"u1", some "secret"⟩] ∧
    enterRoomEnabled false "" = false :=
  ⟨(c8_join_calls roomPriv "u1" "secret" rfl).2.1,
   (c8_join_calls roomPriv "u1" "secret" rfl).2.2 false⟩

end DeskEscape
